import Mathlib

/-!
Shallow embedding of the MARIO-SONIDO-PICADO core: the `AudioProcessor`
onset detector (src/unnamed/part_000) and the game loop / run state machine
(src/src/App.tsx, src/src/constants.ts).

Modelling conventions:
- JavaScript numbers are modelled as exact rationals.
- The `Uint8Array` frequency-magnitude buffer is a `List ℕ`; the external
  audio subsystem writing into it is modelled by `captureWindow`.
- Nullable object fields are `Option`s or `Bool` presence flags; the JS
  `undefined` left in `hoverTime` by the reset object of `startGame` is
  `Option.none`, and the JS comparison `undefined < 2` (false) is `jsLt`.
- Stateful methods become state-passing functions; `checkSound` returns a
  pair of its result record and the updated processor.
-/

set_option maxRecDepth 8000

namespace MarioSonido

/-- `Math.max` on rationals, written with a decidable comparison so that
concrete frames evaluate inside the kernel. -/
def jsMax (a b : ℚ) : ℚ := if a ≤ b then b else a

/-- `Math.min` on rationals, written with a decidable comparison so that
concrete frames evaluate inside the kernel. -/
def jsMin (a b : ℚ) : ℚ := if a ≤ b then a else b

/-! ### Onset detector: class AudioProcessor -/

structure CheckSoundResult where
  onset : Bool
  offset : Bool
  isSounding : Bool
deriving DecidableEq

structure AudioProcessor where
  audioContextOpen : Bool
  analyser : Bool
  dataArray : Option (List ℕ)
  streamActive : Bool
  threshold : ℚ
  isSounding : Bool
deriving DecidableEq

/-- Field initializers of the class: no context, no analyser, no buffer,
no stream, threshold 30, not sounding. -/
def AudioProcessor.init : AudioProcessor :=
  { audioContextOpen := false, analyser := false, dataArray := none,
    streamActive := false, threshold := 30, isSounding := false }

/-- Successful `start()`: acquires the stream, opens the context, builds the
analyser and allocates the 128-bin data array (fftSize 256). -/
def AudioProcessor.startOk (p : AudioProcessor) : AudioProcessor :=
  { p with streamActive := true, audioContextOpen := true, analyser := true,
           dataArray := some (List.replicate 128 0) }

/-- The external audio subsystem writing the most recent magnitude window
into the data array (what `getByteFrequencyData` reads back). -/
def AudioProcessor.captureWindow (p : AudioProcessor) (buf : List ℕ) : AudioProcessor :=
  if p.analyser then { p with dataArray := some buf } else p

/-- `stop()`: stops the stream tracks and closes the audio context. It does
not assign `analyser` or `dataArray`, so both keep their values. -/
def AudioProcessor.stop (p : AudioProcessor) : AudioProcessor :=
  { p with streamActive := false, audioContextOpen := false }

/-- `setThreshold(value)`: stores the value, no validation. -/
def AudioProcessor.setThreshold (p : AudioProcessor) (value : ℚ) : AudioProcessor :=
  { p with threshold := value }

/-- `getVolume()`: returns 0 when `analyser` or `dataArray` is null,
otherwise the running maximum of the buffer (the loop
`if (dataArray[i] > max) max = dataArray[i]`). -/
def AudioProcessor.getVolume (p : AudioProcessor) : ℕ :=
  match p.analyser, p.dataArray with
  | true, some data => data.foldl (fun m x => if m < x then x else m) 0
  | _, _ => 0

/-- `checkSound()`: computes `nowSounding = volume > threshold`, raises
`onset` on a quiet-to-sounding edge, `offset` on a sounding-to-quiet edge,
and stores `nowSounding` back into `isSounding`. -/
def AudioProcessor.checkSound (p : AudioProcessor) : CheckSoundResult × AudioProcessor :=
  let volume := p.getVolume
  let nowSounding : Bool := decide ((volume : ℚ) > p.threshold)
  let edges : Bool × Bool :=
    if nowSounding && !p.isSounding then (true, false)
    else if !nowSounding && p.isSounding then (false, true)
    else (false, false)
  (⟨edges.1, edges.2, nowSounding⟩, { p with isSounding := nowSounding })

/-! ### Game constants (App.tsx) -/

def CANVAS_WIDTH : ℚ := 800
def CANVAS_HEIGHT : ℚ := 400
def GRAVITY : ℚ := 6/10
def JUMP_FORCE : ℚ := -12
def GROUND_Y : ℚ := CANVAS_HEIGHT - 60
def PLAYER_SIZE : ℚ := 40
def OBSTACLE_WIDTH : ℚ := 30
def OBSTACLE_HEIGHT : ℚ := 50

/-- Fixed logical timestep of the loop, `const dt = 16.67` milliseconds. -/
def dt : ℚ := 1667/100

/-! ### Level configuration (constants.ts); non-behavioral string fields
(name, description) are omitted. -/

structure LevelConfig where
  id : ℕ
  bpm : ℚ
  duration : ℚ
  requiredSounds : ℕ
  speedMultiplier : ℚ
  isPro : Bool := false
deriving DecidableEq

def LEVELS : List LevelConfig :=
  [ { id := 1, bpm := 50, duration := 120, requiredSounds := 10, speedMultiplier := 1 },
    { id := 2, bpm := 60, duration := 120, requiredSounds := 10, speedMultiplier := 12/10 },
    { id := 3, bpm := 70, duration := 120, requiredSounds := 20, speedMultiplier := 15/10 },
    { id := 4, bpm := 70, duration := 120, requiredSounds := 20, speedMultiplier := 15/10,
      isPro := true } ]

/-! ### Game objects and run state -/

inductive Status
  | menu
  | playing
  | gameover
  | win
deriving DecidableEq

inductive ObsType
  | pipe
  | box
  | plant
deriving DecidableEq

structure Obstacle where
  x : ℚ
  type : ObsType
deriving DecidableEq

/-- `playerRef.current`. `hoverTime = none` models the JS `undefined` left
by the reset object in `startGame`, which assigns only y, vy, isJumping. -/
structure Player where
  y : ℚ
  vy : ℚ
  isJumping : Bool
  hoverTime : Option ℚ
deriving DecidableEq

/-- The combined mutable game state: the React `gameState` record plus the
refs mutated by the loop (`playerRef`, `obstaclesRef`, `lastObstacleTime`,
`gameTimeRef`, `soundsCountRef`), the `micEnabled` flag and the `proSpeed`
slider value. -/
structure Game where
  status : Status
  currentLevel : Option LevelConfig
  score : ℕ
  soundsDetected : ℕ
  timeLeft : ℚ
  micEnabled : Bool
  proSpeed : ℚ
  player : Player
  obstacles : List Obstacle
  lastObstacleTime : ℚ
  gameTime : ℚ
  soundsCount : ℕ
deriving DecidableEq

/-- `startGame(level)`: rejected (full no-op apart from the alert) when the
microphone is not enabled; otherwise sets the playing state and resets the
refs. The player reset object omits `hoverTime`, leaving it undefined. -/
def startGame (g : Game) (level : LevelConfig) : Game :=
  if !g.micEnabled then g
  else
    { g with
        status := Status.playing, currentLevel := some level, score := 0,
        soundsDetected := 0, timeLeft := level.duration,
        player := { y := GROUND_Y - PLAYER_SIZE, vy := 0, isJumping := false,
                    hoverTime := none },
        obstacles := [], lastObstacleTime := 0, gameTime := 0, soundsCount := 0 }

/-! ### One frame of the game loop -/

/-- Per-frame external inputs: the animation-frame timestamp, the polled
audio status (`none` when `audioProcessorRef.current` is null), the value
of `Math.random()` used for the spawn decision, and the obstacle kind
picked by the second `Math.random()` call. -/
structure FrameInput where
  time : ℚ
  audio : Option CheckSoundResult
  spawnRand : ℚ
  obsType : ObsType
deriving DecidableEq

/-- The onset reaction: immediate jump impulse, mark jumping, zero the
hover timer. -/
def jumpOnOnset (p : Player) : Player :=
  { p with vy := JUMP_FORCE, isJumping := true, hoverTime := some 0 }

/-- JS comparison `a < b` where `a` may be undefined or NaN: any comparison
against undefined evaluates to false. -/
def jsLt (a : Option ℚ) (b : ℚ) : Bool :=
  match a with
  | some x => decide (x < b)
  | none => false

/-- Result of the audio-detection block of the loop: the `isSounding` flag
read from the poll, the possibly jump-started player, and the updated
sound counters. -/
structure AudioFrame where
  isSounding : Bool
  player : Player
  soundsCount : ℕ
  soundsDetected : ℕ
deriving DecidableEq

/-- Audio-detection block: when a processor exists, read `checkSound` and
on `onset` apply the jump impulse and bump both counters; when no
processor exists, `isSounding` stays false and nothing changes. -/
def audioStage (g : Game) (audio : Option CheckSoundResult) : AudioFrame :=
  match audio with
  | none => ⟨false, g.player, g.soundsCount, g.soundsDetected⟩
  | some a =>
      if a.onset then ⟨a.isSounding, jumpOnOnset g.player, g.soundsCount + 1, g.soundsCount + 1⟩
      else ⟨a.isSounding, g.player, g.soundsCount, g.soundsDetected⟩

/-- Physics block, jump plus hover: while sounding and jumping with hover
budget left, clamp the velocity to at most 1.0 and accumulate the hover
timer; in every other case add gravity. The comparison of the possibly
undefined hover timer uses JS semantics (`jsLt`). -/
def hoverGravityStep (isSounding : Bool) (p : Player) : Player :=
  if isSounding && p.isJumping then
    if jsLt p.hoverTime 2 then
      { p with vy := jsMin p.vy 1, hoverTime := p.hoverTime.map (fun h => h + dt / 1000) }
    else
      { p with vy := p.vy + GRAVITY }
  else
    { p with vy := p.vy + GRAVITY }

/-- Position integration and the two boundary checks: the ground clamp also
zeroes the velocity and clears `isJumping`; the ceiling clamp only zeroes
the velocity. -/
def integrateClamp (p : Player) : Player :=
  let p1 := { p with y := p.y + p.vy }
  let p2 :=
    if p1.y > GROUND_Y - PLAYER_SIZE then
      { p1 with y := GROUND_Y - PLAYER_SIZE, vy := 0, isJumping := false }
    else p1
  if p2.y < 0 then { p2 with y := 0, vy := 0 } else p2

/-- The player produced by a physics frame: audio block, then hover or
gravity, then integration and clamping. -/
def framePlayer (g : Game) (i : FrameInput) : Player :=
  integrateClamp (hoverGravityStep (audioStage g i.audio).isSounding (audioStage g i.audio).player)

/-- Scroll speed of this frame: the pro slider or the level multiplier,
times the fixed scale factor 4. -/
def scrollSpeed (g : Game) (level : LevelConfig) : ℚ :=
  (if level.isPro then g.proSpeed else level.speedMultiplier) * 4

/-- Obstacle generation block: when the beat interval since the last spawn
has elapsed, push a new obstacle at the right edge with probability
`Math.random() > 0.4` and reset the spawn timer either way. -/
def spawnStage (g : Game) (level : LevelConfig) (i : FrameInput) : List Obstacle × ℚ :=
  if i.time - g.lastObstacleTime > 60000 / level.bpm then
    (if i.spawnRand > 4/10 then g.obstacles ++ [⟨CANVAS_WIDTH, i.obsType⟩] else g.obstacles,
     i.time)
  else (g.obstacles, g.lastObstacleTime)

/-- The obstacle list after spawning and the leftward scroll of this frame,
the list the collision loop iterates over. -/
def movedObstacles (g : Game) (level : LevelConfig) (i : FrameInput) : List Obstacle :=
  (spawnStage g level i).1.map (fun o => { o with x := o.x - scrollSpeed g level })

/-- Type-specific obstacle height: boxes are 40, pipes and plants 50. -/
def obsHeight (t : ObsType) : ℚ :=
  if t = ObsType.box then 40 else OBSTACLE_HEIGHT

/-- Type-specific obstacle top edge: boxes float higher. -/
def obsY (t : ObsType) : ℚ :=
  if t = ObsType.box then GROUND_Y - 100 else GROUND_Y - obsHeight t

/-- The four strict comparisons of the collision check against the player
box at lane position 50. -/
def collides (py : ℚ) (o : Obstacle) : Bool :=
  decide (o.x < 50 + PLAYER_SIZE) && decide (o.x + OBSTACLE_WIDTH > 50) &&
  decide (py + PLAYER_SIZE > obsY o.type) && decide (py < obsY o.type + obsHeight o.type)

/-- One invocation of `gameLoop`: early return unless playing with a level;
advance the clock and evaluate win/loss on timeout; otherwise audio,
physics, spawn and scroll, collision (early gameover return skips the
pruning), pruning. Drawing mutates only the canvas and is not modelled. -/
def gameLoopStep (g : Game) (i : FrameInput) : Game :=
  if g.status ≠ Status.playing then g else
  match g.currentLevel with
  | none => g
  | some level =>
      let gameTime := g.gameTime + dt / 1000
      if jsMax 0 (level.duration - gameTime) = 0 then
        { g with gameTime := gameTime,
                 status := if g.soundsCount ≥ level.requiredSounds then Status.win
                           else Status.gameover }
      else
        let af := audioStage g i.audio
        let player := framePlayer g i
        let moved := movedObstacles g level i
        if moved.any (fun o => collides player.y o) then
          { g with gameTime := gameTime, status := Status.gameover, player := player,
                   soundsCount := af.soundsCount, soundsDetected := af.soundsDetected,
                   obstacles := moved, lastObstacleTime := (spawnStage g level i).2 }
        else
          { g with gameTime := gameTime, player := player,
                   soundsCount := af.soundsCount, soundsDetected := af.soundsDetected,
                   obstacles := moved.filter (fun o => decide (o.x > -OBSTACLE_WIDTH)),
                   lastObstacleTime := (spawnStage g level i).2 }

/-- Iterated frames. -/
def run (g : Game) (inputs : List FrameInput) : Game :=
  inputs.foldl gameLoopStep g

/-! ### Spec-side geometric predicate (for the collision claim) -/

/-- Strict overlap of the obstacle box and the player box, stated from the
geometry of the spec: the interiors of the horizontal spans intersect and
the interiors of the vertical spans intersect. The player box sits at lane
position 50 with width and height `PLAYER_SIZE`; the obstacle box is the
type-specific one. -/
def strictOverlap (py : ℚ) (o : Obstacle) : Prop :=
  (Set.Ioo o.x (o.x + OBSTACLE_WIDTH) ∩ Set.Ioo (50 : ℚ) (50 + PLAYER_SIZE)).Nonempty ∧
  (Set.Ioo (obsY o.type) (obsY o.type + obsHeight o.type) ∩
    Set.Ioo py (py + PLAYER_SIZE)).Nonempty

/-! ### Invariant predicates -/

/-- The player stays between the ceiling and the ground. -/
def Ybounded (g : Game) : Prop :=
  0 ≤ g.player.y ∧ g.player.y ≤ GROUND_Y - PLAYER_SIZE

/-- Whenever the player is marked jumping, the hover timer holds a defined
value. -/
def hoverDefined (p : Player) : Prop :=
  p.isJumping = true → p.hoverTime ≠ none

/-! ### Concrete fixtures used by witnesses and counterexamples -/

/-- A magnitude window with a single loud bin. -/
def bufOne90 : List ℕ := List.replicate 127 0 ++ [90]

/-- A started detector whose last captured window is `bufOne90`. -/
def pLoud : AudioProcessor := (AudioProcessor.init.startOk).captureWindow bufOne90

/-- The same detector after `stop()`. -/
def stoppedLoud : AudioProcessor := pLoud.stop

def level1 : LevelConfig :=
  { id := 1, bpm := 50, duration := 120, requiredSounds := 10, speedMultiplier := 1 }

/-- A playing run about to hit the time limit with 10 detected sounds. -/
def G10 : Game :=
  { status := Status.playing, currentLevel := some level1, score := 0, soundsDetected := 10,
    timeLeft := 120, micEnabled := true, proSpeed := 15/10,
    player := { y := 300, vy := 0, isJumping := false, hoverTime := some 0 },
    obstacles := [], lastObstacleTime := 0, gameTime := 120, soundsCount := 10 }

/-- A playing run with plenty of time and an obstacle that after this
frame's scroll exactly touches the player box edge. -/
def Gtouch : Game :=
  { G10 with gameTime := 0, obstacles := [⟨94, ObsType.pipe⟩] }

/-- Like `Gtouch` but with one more unit of overlap after the scroll. -/
def Gover : Game :=
  { G10 with gameTime := 0, obstacles := [⟨93, ObsType.pipe⟩] }

/-- A finished run with leftover state, used to exercise the reset. -/
def Gmenu : Game :=
  { status := Status.gameover, currentLevel := some level1, score := 0, soundsDetected := 7,
    timeLeft := 3, micEnabled := true, proSpeed := 15/10,
    player := { y := 12, vy := -3, isJumping := true, hoverTime := some 1 },
    obstacles := [⟨400, ObsType.box⟩], lastObstacleTime := 9, gameTime := 117,
    soundsCount := 7 }

/-- A frame input with no audio processor and no spawn. -/
def Iidle : FrameInput := { time := 0, audio := none, spawnRand := 0, obsType := ObsType.pipe }

/-- A frame input whose audio poll reports an onset. -/
def Ionset : FrameInput :=
  { time := 0, audio := some ⟨true, false, true⟩, spawnRand := 0, obsType := ObsType.pipe }

/-! ### Theorems -/

theorem jsMax_eq_max (a b : ℚ) : jsMax a b = max a b := (max_def a b).symm

theorem jsMin_eq_min (a b : ℚ) : jsMin a b = min a b := (min_def a b).symm

/-- C1: one call to checkSound reports onset exactly on a quiet-to-sounding
transition of this call, offset exactly on a sounding-to-quiet transition,
never both at once, and stores volume > threshold as the new isSounding
value both internally and in the returned record. -/
theorem checkSound_edge_spec (p : AudioProcessor) :
    ((p.checkSound.1.onset = true) ↔
      (p.isSounding = false ∧ p.checkSound.2.isSounding = true)) ∧
    ((p.checkSound.1.offset = true) ↔
      (p.isSounding = true ∧ p.checkSound.2.isSounding = false)) ∧
    (¬(p.checkSound.1.onset = true ∧ p.checkSound.1.offset = true)) ∧
    (p.checkSound.2.isSounding = decide ((p.getVolume : ℚ) > p.threshold)) ∧
    (p.checkSound.1.isSounding = p.checkSound.2.isSounding) := by
  unfold AudioProcessor.checkSound
  cases hs : p.isSounding <;>
    cases hn : decide ((p.getVolume : ℚ) > p.threshold) <;>
      simp [hs, hn]

/-- C1 witness: the quiet loud detector reports an onset on its first
poll, and never onset and offset together on that poll. -/
theorem checkSound_edge_spec_witness :
    (pLoud.checkSound).1.onset = true ∧
    ¬((pLoud.checkSound).1.onset = true ∧ (pLoud.checkSound).1.offset = true) := by
  have h := checkSound_edge_spec pLoud
  exact ⟨h.1.mpr ⟨rfl, by decide⟩, h.2.2.1⟩

/-- Running maximum of a fold with the comparison loop of getVolume: the
result bounds the start and every element, and is the start or one of the
elements. -/
theorem foldl_peak (l : List ℕ) (a : ℕ) :
    a ≤ l.foldl (fun m x => if m < x then x else m) a ∧
    (∀ x ∈ l, x ≤ l.foldl (fun m x => if m < x then x else m) a) ∧
    (l.foldl (fun m x => if m < x then x else m) a = a ∨
      l.foldl (fun m x => if m < x then x else m) a ∈ l) := by
  induction l generalizing a with
  | nil => simp
  | cons y ys ih =>
    simp only [List.foldl_cons]
    have hsa : a ≤ (if a < y then y else a) := by split <;> omega
    have hsy : y ≤ (if a < y then y else a) := by split <;> omega
    have hs : (if a < y then y else a) = a ∨ (if a < y then y else a) = y := by
      split
      · exact Or.inr rfl
      · exact Or.inl rfl
    rcases ih (if a < y then y else a) with ⟨h1, h2, h3⟩
    refine ⟨le_trans hsa h1, ?_, ?_⟩
    · intro x hx
      rcases List.mem_cons.mp hx with rfl | hx
      · exact le_trans hsy h1
      · exact h2 x hx
    · rcases h3 with h3 | h3
      · rcases hs with hs | hs
        · exact Or.inl (h3.trans hs)
        · exact Or.inr (List.mem_cons.mpr (Or.inl (h3.trans hs)))
      · exact Or.inr (List.mem_cons_of_mem y h3)

/-- C8: with an active analysis pipeline, getVolume is the peak of the
magnitude buffer: an upper bound of every bin that is itself 0 or one of
the bins. -/
theorem getVolume_peak (p : AudioProcessor) (buf : List ℕ)
    (h1 : p.analyser = true) (h2 : p.dataArray = some buf) :
    (∀ x ∈ buf, x ≤ p.getVolume) ∧ (p.getVolume = 0 ∨ p.getVolume ∈ buf) := by
  have hg : p.getVolume = buf.foldl (fun m x => if m < x then x else m) 0 := by
    unfold AudioProcessor.getVolume
    rw [h1, h2]
  rcases foldl_peak buf 0 with ⟨_, hub, hmem⟩
  rw [hg]
  exact ⟨hub, hmem⟩

/-- C8 witness: on the window with one bin at 90 and the rest 0, the
returned volume is 90, bounds every bin, and differs from the integer mean
of the window. -/
theorem getVolume_peak_witness :
    pLoud.getVolume = 90 ∧ (∀ x ∈ bufOne90, x ≤ pLoud.getVolume) ∧
    ¬ pLoud.getVolume = bufOne90.foldl (· + ·) 0 / bufOne90.length := by
  refine ⟨by decide, ?_, by decide⟩
  exact (getVolume_peak pLoud bufOne90 (by rfl) (by rfl)).1

/-- C9: setThreshold keeps the volume reading, and the next poll classifies
sounding exactly when the fixed volume exceeds the new threshold: any
threshold at or above the volume reads not sounding, any threshold below
it reads sounding. -/
theorem setThreshold_flips_isSounding (p : AudioProcessor) (t : ℚ) :
    ((p.setThreshold t).getVolume = p.getVolume) ∧
    (((p.getVolume : ℚ) ≤ t) → ((p.setThreshold t).checkSound).1.isSounding = false) ∧
    ((t < (p.getVolume : ℚ)) → ((p.setThreshold t).checkSound).1.isSounding = true) := by
  refine ⟨rfl, fun h => ?_, fun h => ?_⟩
  · simp [AudioProcessor.checkSound, AudioProcessor.setThreshold]
    exact h
  · simp [AudioProcessor.checkSound, AudioProcessor.setThreshold]
    exact h

/-- C9 witness: with the fixed volume 90, threshold 90 reads not sounding
and threshold 10 reads sounding on the next poll. -/
theorem setThreshold_flips_isSounding_witness :
    ((pLoud.setThreshold 90).checkSound).1.isSounding = false ∧
    ((pLoud.setThreshold 10).checkSound).1.isSounding = true := by
  constructor
  · exact (setThreshold_flips_isSounding pLoud 90).2.1 (by decide)
  · exact (setThreshold_flips_isSounding pLoud 10).2.2 (by decide)

/-- C6 (amended): a detector that was never started (analyser or data
array still null) has getVolume 0 and, with a nonnegative threshold (the
default is 30 and the UI supplies values in [5,100]), checkSound reports
not sounding rather than failing; stop() does not clear the analyser or
the data array, so it leaves getVolume and the sounding classification of
the next poll unchanged instead of forcing them to 0 and false. -/
theorem no_session_degrades (p q : AudioProcessor)
    (h1 : p.analyser = false ∨ p.dataArray = none) (h2 : 0 ≤ p.threshold) :
    (p.getVolume = 0 ∧ (p.checkSound).1.isSounding = false) ∧
    ((q.stop).getVolume = q.getVolume ∧
      ((q.stop).checkSound).1.isSounding = (q.checkSound).1.isSounding) := by
  have hv : p.getVolume = 0 := by
    cases hA : p.analyser <;> cases hD : p.dataArray <;>
      simp_all [AudioProcessor.getVolume]
  refine ⟨⟨hv, ?_⟩, rfl, rfl⟩
  simp [AudioProcessor.checkSound, hv]
  exact h2

/-- C6 witness: the never-started detector reads volume 0 and not
sounding, and stop() leaves the loud detector's reading at 90. -/
theorem no_session_degrades_witness :
    AudioProcessor.init.getVolume = 0 ∧
    ((AudioProcessor.init.checkSound).1.isSounding = false) ∧
    (pLoud.stop).getVolume = pLoud.getVolume := by
  have h := no_session_degrades AudioProcessor.init pLoud (Or.inl rfl) (by decide)
  exact ⟨h.1.1, h.1.2, h.2.1⟩

/-- C6 counterexample: a detector on which stop() has been called still
reports the stale peak 90 and classifies as sounding on the next poll,
not 0 and false as the claim states for any detector without an active
session. -/
theorem stopped_detector_not_degraded :
    stoppedLoud.getVolume = 90 ∧ ¬ stoppedLoud.getVolume = 0 ∧
    (stoppedLoud.checkSound).1.isSounding = true := by
  refine ⟨by decide, by decide, by decide⟩

/-- C7: from any prior state, startGame without an enabled microphone is a
complete no-op, and with one it empties the obstacle list, puts the player
body on the ground with zero velocity and isJumping false, zeroes elapsed
time, the spawn timer and the sound counter, and enters the playing
state. -/
theorem startGame_reset_spec (g : Game) (l : LevelConfig) :
    (g.micEnabled = false → startGame g l = g) ∧
    (g.micEnabled = true →
      startGame g l =
        { status := Status.playing, currentLevel := some l, score := 0, soundsDetected := 0,
          timeLeft := l.duration, micEnabled := g.micEnabled, proSpeed := g.proSpeed,
          player := { y := GROUND_Y - PLAYER_SIZE, vy := 0, isJumping := false,
                      hoverTime := none },
          obstacles := [], lastObstacleTime := 0, gameTime := 0, soundsCount := 0 }) := by
  unfold startGame
  constructor <;> intro h <;> simp [h]

/-- C7 witness: after a terminal gameover state, startGame with the mic on
clears the obstacles, counters and clock and enters playing; with the mic
off it changes nothing. -/
theorem startGame_reset_spec_witness :
    (startGame Gmenu level1).obstacles = [] ∧
    (startGame Gmenu level1).soundsCount = 0 ∧
    (startGame Gmenu level1).gameTime = 0 ∧
    (startGame Gmenu level1).status = Status.playing ∧
    startGame { Gmenu with micEnabled := false } level1 =
      { Gmenu with micEnabled := false } := by
  have h := (startGame_reset_spec Gmenu level1).2 rfl
  refine ⟨by rw [h], by rw [h], by rw [h], by rw [h], ?_⟩
  exact (startGame_reset_spec { Gmenu with micEnabled := false } level1).1 rfl

/-- C2: when the clamped remaining time hits exactly 0 this frame, the run
ends as win exactly when the counted onsets reach the level requirement
and as gameover otherwise, and nothing else of the frame runs: only the
clock and the status change. -/
theorem timeout_settles_run (g : Game) (l : LevelConfig) (i : FrameInput)
    (h1 : g.status = Status.playing) (h2 : g.currentLevel = some l)
    (h3 : jsMax 0 (l.duration - (g.gameTime + dt / 1000)) = 0) :
    gameLoopStep g i =
      { g with gameTime := g.gameTime + dt / 1000,
               status := if g.soundsCount ≥ l.requiredSounds then Status.win
                         else Status.gameover } := by
  simp [gameLoopStep, h1, h2, h3]

/-- C2 witness: with duration 120 and requiredSounds 10, crossing 120s of
elapsed time with 10 counted onsets ends in win, and with 9 in
gameover. -/
theorem timeout_settles_run_witness :
    (gameLoopStep G10 Iidle).status = Status.win ∧
    (gameLoopStep { G10 with soundsDetected := 9, soundsCount := 9 } Iidle).status =
      Status.gameover := by
  constructor
  · rw [timeout_settles_run G10 level1 Iidle rfl rfl (by with_unfolding_all rfl)]
    decide
  · rw [timeout_settles_run { G10 with soundsDetected := 9, soundsCount := 9 } level1 Iidle
      rfl rfl (by with_unfolding_all rfl)]
    decide

/-- C3: with sound and an active jump and hover budget left, the physics
frame clamps the velocity to at most 1.0 and advances the hover timer by
the timestep; with the budget exhausted, without sound, without a jump, or
with an undefined timer, it adds gravity instead. -/
theorem hover_then_gravity (p : Player) (h : ℚ)
    (hj : p.isJumping = true) (hh : p.hoverTime = some h) :
    (h < 2 → hoverGravityStep true p =
      { p with vy := min p.vy 1, hoverTime := some (h + dt / 1000) }) ∧
    (2 ≤ h → hoverGravityStep true p = { p with vy := p.vy + GRAVITY }) ∧
    (∀ (s : Bool) (q : Player), s = false ∨ q.isJumping = false →
      hoverGravityStep s q = { q with vy := q.vy + GRAVITY }) ∧
    (∀ (s : Bool) (q : Player), q.hoverTime = none →
      hoverGravityStep s q = { q with vy := q.vy + GRAVITY }) := by
  refine ⟨fun hl => ?_, fun hge => ?_, fun s q hq => ?_, fun s q hq => ?_⟩
  · simp [hoverGravityStep, jsLt, hj, hh, hl, jsMin_eq_min]
  · simp [hoverGravityStep, jsLt, hj, hh, not_lt.mpr hge]
  · rcases hq with hq | hq <;> simp [hoverGravityStep, hq]
  · cases hs : s && q.isJumping <;> simp [hoverGravityStep, jsLt, hq, hs]

/-- C3 witness: a jumping, sounding player with hover timer 0 keeps at most
velocity 1 and advances the timer; the same player with timer 2 gets full
gravity despite continued sound. -/
theorem hover_then_gravity_witness :
    hoverGravityStep true ⟨100, -5, true, some 0⟩ =
      { y := 100, vy := min (-5 : ℚ) 1, isJumping := true, hoverTime := some (0 + dt / 1000) } ∧
    hoverGravityStep true ⟨100, -5, true, some 2⟩ =
      { y := 100, vy := -5 + GRAVITY, isJumping := true, hoverTime := some 2 } := by
  constructor
  · exact (hover_then_gravity ⟨100, -5, true, some 0⟩ 0 rfl rfl).1 (by decide)
  · exact (hover_then_gravity ⟨100, -5, true, some 2⟩ 2 rfl rfl).2.1 (by decide)

theorem groundLevel_nonneg : (0:ℚ) ≤ GROUND_Y - PLAYER_SIZE := by
  norm_num [GROUND_Y, CANVAS_HEIGHT, PLAYER_SIZE]

theorem integrateClamp_bounds (p : Player) :
    0 ≤ (integrateClamp p).y ∧ (integrateClamp p).y ≤ GROUND_Y - PLAYER_SIZE := by
  have h0 := groundLevel_nonneg
  simp only [integrateClamp]
  split_ifs <;> constructor <;> simp_all

theorem framePlayer_bounds (g : Game) (i : FrameInput) :
    0 ≤ (framePlayer g i).y ∧ (framePlayer g i).y ≤ GROUND_Y - PLAYER_SIZE :=
  integrateClamp_bounds _

theorem gameLoopStep_Ybounded (g : Game) (i : FrameInput) (h : Ybounded g) :
    Ybounded (gameLoopStep g i) := by
  unfold Ybounded at h ⊢
  by_cases h1 : g.status = Status.playing
  · cases h2 : g.currentLevel with
    | none => simpa [gameLoopStep, h1, h2] using h
    | some l =>
      by_cases h3 : jsMax 0 (l.duration - (g.gameTime + dt / 1000)) = 0
      · simpa [gameLoopStep, h1, h2, h3] using h
      · by_cases h4 :
          (movedObstacles g l i).any (fun o => collides (framePlayer g i).y o) = true
        · simpa [gameLoopStep, h1, h2, h3, h4] using framePlayer_bounds g i
        · simpa [gameLoopStep, h1, h2, h3, h4] using framePlayer_bounds g i
  · simpa [gameLoopStep, h1] using h

theorem run_Ybounded (g : Game) (inputs : List FrameInput) (h : Ybounded g) :
    Ybounded (run g inputs) := by
  induction inputs generalizing g with
  | nil => exact h
  | cons i is ih => exact ih _ (gameLoopStep_Ybounded g i h)

theorem startGame_Ybounded (g : Game) (l : LevelConfig) (h : g.micEnabled = true) :
    Ybounded (startGame g l) := by
  simp [startGame, h, Ybounded]
  norm_num [GROUND_Y, CANVAS_HEIGHT, PLAYER_SIZE]

/-- C4: the ground clamp fires exactly on overshoot past the ground and
also zeroes the velocity and clears isJumping; the ceiling clamp zeroes
only the velocity and keeps isJumping; every physics integration lands the
vertical position inside [0, groundLevel - bodyHeight], and along any run
from the reset state the position stays inside that interval. -/
theorem physics_clamp_spec :
    (∀ p : Player, p.y + p.vy > GROUND_Y - PLAYER_SIZE →
      integrateClamp p = { p with y := GROUND_Y - PLAYER_SIZE, vy := 0, isJumping := false }) ∧
    (∀ p : Player, p.y + p.vy < 0 → integrateClamp p = { p with y := 0, vy := 0 }) ∧
    (∀ p : Player, 0 ≤ (integrateClamp p).y ∧
      (integrateClamp p).y ≤ GROUND_Y - PLAYER_SIZE) ∧
    (∀ (g : Game) (l : LevelConfig) (inputs : List FrameInput), g.micEnabled = true →
      0 ≤ (run (startGame g l) inputs).player.y ∧
      (run (startGame g l) inputs).player.y ≤ GROUND_Y - PLAYER_SIZE) := by
  refine ⟨?_, ?_, integrateClamp_bounds, ?_⟩
  · intro p h
    have hno : ¬ (GROUND_Y - PLAYER_SIZE < (0:ℚ)) := not_lt.mpr groundLevel_nonneg
    simp [integrateClamp, h, hno]
  · intro p h
    have hng : ¬ (p.y + p.vy > GROUND_Y - PLAYER_SIZE) := by
      have h0 := groundLevel_nonneg
      push_neg
      linarith
    simp [integrateClamp, hng, h]
  · intro g l inputs h
    exact run_Ybounded _ inputs (startGame_Ybounded g l h)

/-- C4 witness: an overshooting fall is clamped to the ground with zeroed
velocity and cleared isJumping; an overshooting rise is clamped to the
ceiling with zeroed velocity and isJumping untouched; and a concrete run
from the reset state keeps the position in bounds. -/
theorem physics_clamp_spec_witness :
    integrateClamp ⟨300, 5, true, some 0⟩ =
      { y := GROUND_Y - PLAYER_SIZE, vy := 0, isJumping := false, hoverTime := some 0 } ∧
    integrateClamp ⟨1, -5, true, none⟩ =
      { y := 0, vy := 0, isJumping := true, hoverTime := none } ∧
    (0 ≤ (run (startGame Gmenu level1) [Ionset, Iidle]).player.y ∧
      (run (startGame Gmenu level1) [Ionset, Iidle]).player.y ≤
        GROUND_Y - PLAYER_SIZE) := by
  refine ⟨physics_clamp_spec.1 _ (by with_unfolding_all decide),
          physics_clamp_spec.2.1 _ (by with_unfolding_all decide),
          physics_clamp_spec.2.2.2 Gmenu level1 [Ionset, Iidle] rfl⟩

theorem Ioo_inter_nonempty_iff (a b c d : ℚ) (hab : a < b) (hcd : c < d) :
    (Set.Ioo a b ∩ Set.Ioo c d).Nonempty ↔ (a < d ∧ c < b) := by
  rw [Set.Ioo_inter_Ioo, Set.nonempty_Ioo, sup_lt_iff, lt_inf_iff, lt_inf_iff]
  constructor
  · rintro ⟨⟨ha, hb⟩, hc, hd⟩
    exact ⟨hb, hc⟩
  · rintro ⟨h1, h2⟩
    exact ⟨⟨hab, h1⟩, h2, hcd⟩

theorem collides_iff_strictOverlap (py : ℚ) (o : Obstacle) :
    collides py o = true ↔ strictOverlap py o := by
  have hw : (0:ℚ) < OBSTACLE_WIDTH := by norm_num [OBSTACLE_WIDTH]
  have hp : (0:ℚ) < PLAYER_SIZE := by norm_num [PLAYER_SIZE]
  have hh : (0:ℚ) < obsHeight o.type := by
    unfold obsHeight
    split <;> norm_num [OBSTACLE_HEIGHT]
  unfold collides strictOverlap
  rw [Ioo_inter_nonempty_iff _ _ _ _ (by linarith) (by linarith),
      Ioo_inter_nonempty_iff _ _ _ _ (by linarith) (by linarith)]
  simp only [Bool.and_eq_true, decide_eq_true_eq]
  tauto

/-- C5: the collision check of a frame sends the run to gameover exactly
when some live (already scrolled) obstacle box strictly overlaps the
player box on both axes, and on a hit the remaining obstacle processing
(the off-screen pruning) is skipped, leaving the scrolled list as is. An
exact edge touch is not an overlap of the open spans, so it does not
trigger. -/
theorem collision_gameover_spec (g : Game) (l : LevelConfig) (i : FrameInput)
    (h1 : g.status = Status.playing) (h2 : g.currentLevel = some l)
    (h3 : ¬ jsMax 0 (l.duration - (g.gameTime + dt / 1000)) = 0) :
    (∀ (py : ℚ) (o : Obstacle), collides py o = true ↔ strictOverlap py o) ∧
    ((gameLoopStep g i).status = Status.gameover ↔
      ∃ o ∈ movedObstacles g l i, strictOverlap (framePlayer g i).y o) ∧
    ((gameLoopStep g i).status = Status.gameover →
      (gameLoopStep g i).obstacles = movedObstacles g l i) := by
  by_cases h4 : (movedObstacles g l i).any (fun o => collides (framePlayer g i).y o) = true
  · have hstat : (gameLoopStep g i).status = Status.gameover := by
      simp [gameLoopStep, h1, h2, h3, h4]
    have hobs : (gameLoopStep g i).obstacles = movedObstacles g l i := by
      simp [gameLoopStep, h1, h2, h3, h4]
    refine ⟨collides_iff_strictOverlap, ⟨fun _ => ?_, fun _ => hstat⟩, fun _ => hobs⟩
    rcases List.any_eq_true.mp h4 with ⟨o, ho, hco⟩
    exact ⟨o, ho, (collides_iff_strictOverlap _ o).mp hco⟩
  · have hstat : (gameLoopStep g i).status = Status.playing := by
      simp [gameLoopStep, h1, h2, h3, h4]
    refine ⟨collides_iff_strictOverlap, ?_, ?_⟩
    · rw [hstat]
      constructor
      · intro hcontra
        exact absurd hcontra (by decide)
      · rintro ⟨o, ho, hov⟩
        exact absurd (List.any_eq_true.mpr ⟨o, ho, (collides_iff_strictOverlap _ o).mpr hov⟩) h4
    · intro hcontra
      rw [hstat] at hcontra
      exact absurd hcontra (by decide)

/-- C5 witness: an obstacle scrolled to x = 89 (one unit of overlap with
the player box ending at 90) triggers gameover and the scrolled list is
kept unpruned, while the same obstacle scrolled to x = 90 (exact edge
touch) leaves the run playing. -/
theorem collision_gameover_spec_witness :
    (gameLoopStep Gover Iidle).status = Status.gameover ∧
    (gameLoopStep Gover Iidle).obstacles = [⟨89, ObsType.pipe⟩] ∧
    (gameLoopStep Gtouch Iidle).status = Status.playing := by
  have hspec := collision_gameover_spec Gover level1 Iidle rfl rfl
    (by with_unfolding_all decide)
  have hover : strictOverlap (framePlayer Gover Iidle).y ⟨89, ObsType.pipe⟩ :=
    (hspec.1 _ _).mp (by with_unfolding_all rfl)
  have hmem : (⟨89, ObsType.pipe⟩ : Obstacle) ∈ movedObstacles Gover level1 Iidle := by
    with_unfolding_all decide
  have hstat := hspec.2.1.mpr ⟨_, hmem, hover⟩
  refine ⟨hstat, ?_, by with_unfolding_all rfl⟩
  rw [hspec.2.2 hstat]
  with_unfolding_all rfl

theorem jumpOnOnset_hoverDefined (p : Player) : hoverDefined (jumpOnOnset p) := by
  simp [jumpOnOnset, hoverDefined]

theorem audioStage_hoverDefined (g : Game) (a : Option CheckSoundResult)
    (h : hoverDefined g.player) : hoverDefined (audioStage g a).player := by
  cases a with
  | none => exact h
  | some r =>
    by_cases ho : r.onset = true
    · simpa [audioStage, ho] using jumpOnOnset_hoverDefined g.player
    · simpa [audioStage, ho] using h

theorem hoverGravityStep_isJumping (s : Bool) (p : Player) :
    (hoverGravityStep s p).isJumping = p.isJumping := by
  unfold hoverGravityStep
  split
  · split <;> rfl
  · rfl

theorem hoverGravityStep_hoverTime_none (s : Bool) (p : Player)
    (h : (hoverGravityStep s p).hoverTime = none) : p.hoverTime = none := by
  unfold hoverGravityStep at h
  split at h
  · split at h
    · simp at h
      exact h
    · exact h
  · exact h

theorem hoverGravityStep_hoverDefined (s : Bool) (p : Player) (h : hoverDefined p) :
    hoverDefined (hoverGravityStep s p) := by
  intro hj hn
  exact h (by rw [← hoverGravityStep_isJumping s p]; exact hj)
    (hoverGravityStep_hoverTime_none s p hn)

theorem integrateClamp_hoverDefined (p : Player) (h : hoverDefined p) :
    hoverDefined (integrateClamp p) := by
  unfold hoverDefined at h ⊢
  simp only [integrateClamp]
  split_ifs <;> intro hj hn <;> simp_all

theorem gameLoopStep_hoverDefined (g : Game) (i : FrameInput)
    (h : hoverDefined g.player) : hoverDefined (gameLoopStep g i).player := by
  by_cases h1 : g.status = Status.playing
  · cases h2 : g.currentLevel with
    | none => simpa [gameLoopStep, h1, h2] using h
    | some l =>
      by_cases h3 : jsMax 0 (l.duration - (g.gameTime + dt / 1000)) = 0
      · simpa [gameLoopStep, h1, h2, h3] using h
      · have hf : hoverDefined (framePlayer g i) :=
          integrateClamp_hoverDefined _ (hoverGravityStep_hoverDefined _ _
            (audioStage_hoverDefined g i.audio h))
        by_cases h4 :
            (movedObstacles g l i).any (fun o => collides (framePlayer g i).y o) = true
        · simpa [gameLoopStep, h1, h2, h3, h4] using hf
        · simpa [gameLoopStep, h1, h2, h3, h4] using hf
  · simpa [gameLoopStep, h1] using h

theorem run_hoverDefined (g : Game) (inputs : List FrameInput)
    (h : hoverDefined g.player) : hoverDefined (run g inputs).player := by
  induction inputs generalizing g with
  | nil => exact h
  | cons i is ih => exact ih _ (gameLoopStep_hoverDefined g i h)

/-- C10: the reset object of startGame omits the hover timer, leaving it
undefined while isJumping is false; isJumping only becomes true through
the onset reaction, which sets the timer to 0 in the same frame; and along
any run from a reset state, whenever the hover branch would read the timer
(the post-audio player is marked jumping), the timer is defined. -/
theorem startGame_hoverTime_spec (g : Game) (l : LevelConfig) (h : g.micEnabled = true) :
    ((startGame g l).player.hoverTime = none) ∧
    ((startGame g l).player.isJumping = false) ∧
    (∀ p : Player, (jumpOnOnset p).isJumping = true ∧ (jumpOnOnset p).hoverTime = some 0) ∧
    (∀ (g1 : Game) (a : Option CheckSoundResult), hoverDefined g1.player →
      ((audioStage g1 a).player.isJumping = true →
        (audioStage g1 a).player.hoverTime ≠ none)) ∧
    (∀ inputs : List FrameInput, hoverDefined (run (startGame g l) inputs).player) := by
  refine ⟨by simp [startGame, h], by simp [startGame, h], fun p => ⟨rfl, rfl⟩,
          fun g1 a hd => audioStage_hoverDefined g1 a hd, fun inputs => ?_⟩
  apply run_hoverDefined
  simp [startGame, h, hoverDefined]

/-- C10 witness: after a concrete reset the hover timer is undefined and
the player is not jumping, and after an onset frame followed by an idle
frame from that reset the jumping-implies-defined-timer invariant still
holds. -/
theorem startGame_hoverTime_spec_witness :
    (startGame Gmenu level1).player.hoverTime = none ∧
    (startGame Gmenu level1).player.isJumping = false ∧
    hoverDefined (run (startGame Gmenu level1) [Ionset, Iidle]).player := by
  have h := startGame_hoverTime_spec Gmenu level1 rfl
  exact ⟨h.1, h.2.1, h.2.2.2.2 [Ionset, Iidle]⟩

end MarioSonido
